import Mathlib

/-!
Verification of the froster archive/restore pipeline (froster.py) against its
natural-language specification.  Each Python function relevant to a claim is
shallowly embedded as a pure Lean function; filesystem and network effects are
made explicit as inputs (directory listings, registry contents, success flags
of external tool calls) and outputs (surviving file lists, action traces).
-/

namespace Froster

/-! ## Meta-file names (froster.py, Archiver.__init__, lines 1096-1106) -/

def smallfiles_tar_filename : String := "Froster.smallfiles.tar"

def allfiles_csv_filename : String := "Froster.allfiles.csv"

def md5sum_filename : String := ".froster.md5sum"

def md5sum_restored_filename : String := ".froster-restored.md5sum"

def where_did_the_files_go_filename : String := "Where-did-the-files-go.txt"

def dirmetafiles : List String :=
  [allfiles_csv_filename,
   smallfiles_tar_filename,
   md5sum_filename,
   md5sum_restored_filename,
   where_did_the_files_go_filename]

/-! ## Archive registry entries and lookup
(froster.py, Archiver.archive_json_get_row, lines 2647-2675).

Paths are modelled as lists of segments of an absolute path, so that
`Path(folder).parents` becomes the chain of proper initial segments,
nearest parent first. -/

abbrev FPath := List String

inductive ArchiveMode where
  | Single
  | Recursive
deriving DecidableEq, Repr

structure ArchiveEntry where
  local_folder : FPath
  archive_folder : String
  s3_storage_class : String
  profile : String
  archive_mode : ArchiveMode
  user : String
deriving DecidableEq, Repr

abbrev Registry := List (FPath × ArchiveEntry)

/-- `folder in data` / `data[folder]` on the JSON dictionary. -/
def registry_lookup (data : Registry) (folder : FPath) : Option ArchiveEntry :=
  match data.find? (fun kv => kv.fst == folder) with
  | some kv => some kv.snd
  | none => none

/-- `Path(folder).parents`: the proper initial segments of the path,
nearest parent first, ending with the root `[]`. -/
def path_parents (p : FPath) : List FPath :=
  ((List.range p.length).map (fun i => p.take i)).reverse

/-- Loop body of archive_json_get_row: walk the parent chain and return the
first parent that is present in the data with `archive_mode == 'Recursive'`.
A parent present with mode `Single` is skipped, not returned and not a
stopper (froster.py line 2672). -/
def find_recursive_parent (data : Registry) : List FPath → Option ArchiveEntry
  | [] => none
  | parent :: rest =>
    match registry_lookup data parent with
    | some e =>
      if e.archive_mode = ArchiveMode.Recursive then some e
      else find_recursive_parent data rest
    | none => find_recursive_parent data rest

/-- Archiver.archive_json_get_row (lines 2647-2675): direct entry if present,
else the nearest parent with a `Recursive` entry, else none. -/
def archive_json_get_row (data : Registry) (folder : FPath) : Option ArchiveEntry :=
  match registry_lookup data folder with
  | some e => some e
  | none => find_recursive_parent data (path_parents folder)

/-! ## Hashing step (froster.py, Archiver._gen_md5sums, lines 1931-1978) -/

/-- The positive hashing condition of `_gen_md5sums` (lines 1958-1962): a
direct-child regular file is hashed iff it is none of `hash_file`,
`Where-did-the-files-go.txt`, `.froster.md5sum`, `.froster-restored.md5sum`.
Note: `Froster.allfiles.csv` and `Froster.smallfiles.tar` are NOT excluded. -/
def gen_md5sums_hashes (hash_file file : String) : Bool :=
  file != hash_file &&
  file != where_did_the_files_go_filename &&
  file != md5sum_filename &&
  file != md5sum_restored_filename

/-- The set of basenames written to the manifest by `_gen_md5sums`, given the
direct-child regular files of the directory.  (The source writes lines in
thread-completion order; only membership is modelled.) -/
def gen_md5sums (hash_file : String) (files : List String) : List String :=
  files.filter (gen_md5sums_hashes hash_file)

/-! ## Delete step (froster.py, Archiver.delete_locally, lines 2165-2265) -/

/-- The skip condition of the deletion loop (line 2220): a file survives iff
it is one of these four names.  Note: `Froster.smallfiles.tar` is NOT in the
skip list and is therefore deleted. -/
def delete_skip (file : String) : Bool :=
  file == md5sum_filename ||
  file == md5sum_restored_filename ||
  file == allfiles_csv_filename ||
  file == where_did_the_files_go_filename

/-- Archiver.delete_locally: `row` is the registry lookup result,
`checksum_ok` the outcome of `rclone.checksum(hashfile, s3_dest)`, and
`files` the direct-child file names of the folder.  Returns the file names
present afterwards: on any early return the folder is untouched; on success
the non-skipped files are removed and `Where-did-the-files-go.txt` is
written. -/
def delete_locally (row : Option ArchiveEntry) (checksum_ok : Bool)
    (files : List String) : List String :=
  match row with
  | none => files
  | some _ =>
    if files.contains md5sum_filename || files.contains md5sum_restored_filename then
      if checksum_ok then
        let kept := files.filter delete_skip
        if kept.contains where_did_the_files_go_filename then kept
        else kept ++ [where_did_the_files_go_filename]
      else files
    else files

/-- A concrete registry entry used to instantiate theorems. -/
def sampleEntry : ArchiveEntry :=
  { local_folder := ["data", "x"]
    archive_folder := ":s3:bucket/froster/data/x"
    s3_storage_class := "DEEP_ARCHIVE"
    profile := "default"
    archive_mode := ArchiveMode.Single
    user := "alice" }

/-- Entry at `["a"]` archived recursively. -/
def entryRec : ArchiveEntry :=
  { local_folder := ["a"]
    archive_folder := ":s3:bucket/froster/a"
    s3_storage_class := "DEEP_ARCHIVE"
    profile := "default"
    archive_mode := ArchiveMode.Recursive
    user := "alice" }

/-- Entry at `["a", "b"]` archived in Single mode. -/
def entrySingle : ArchiveEntry :=
  { local_folder := ["a", "b"]
    archive_folder := ":s3:bucket/froster/a/b"
    s3_storage_class := "DEEP_ARCHIVE"
    profile := "default"
    archive_mode := ArchiveMode.Single
    user := "alice" }

def c2_registry : Registry := [(["a"], entryRec), (["a", "b"], entrySingle)]

/-! ## Small-file packer and allfiles catalog
(froster.py, Archiver._gen_allfiles_and_tar, lines 1984-2070).

A direct child is modelled by its basename and its `os.lstat` size; the
display-only catalog columns (dates, owner, group, permissions) are
environment-derived strings with no bearing on control flow and are not
modelled. -/

structure ChildFile where
  name : String
  size : Nat
deriving DecidableEq, Repr

/-- One row of `Froster.allfiles.csv` (columns that the code computes from
the file itself). -/
structure AllfilesRow where
  file : String
  size : Nat
  tarred : String
deriving DecidableEq, Repr

structure GenLoopOut where
  rows : List AllfilesRow
  members : List String
  remaining : List ChildFile
deriving DecidableEq, Repr

/-- The per-file loop of `_gen_allfiles_and_tar` (lines 2013-2058): skip the
CSV file itself; if `is_tar` and the size is strictly below
`smallsize*1024`, add the file to the tar under its basename, remove it from
disk and record `Tarred=Yes`; otherwise keep it and record `Tarred=No`.
`rows` are the catalog rows, `members` the tar member names, `remaining` the
files still on disk afterwards. -/
def gen_allfiles_loop (is_tar : Bool) (smallsize : Nat) :
    List ChildFile → GenLoopOut
  | [] => { rows := [], members := [], remaining := [] }
  | f :: fs =>
    let rest := gen_allfiles_loop is_tar smallsize fs
    if f.name = allfiles_csv_filename then rest
    else if is_tar = true ∧ f.size < smallsize * 1024 then
      { rest with
          rows := { file := f.name, size := f.size, tarred := "Yes" } :: rest.rows
          members := f.name :: rest.members }
    else
      { rest with
          rows := { file := f.name, size := f.size, tarred := "No" } :: rest.rows
          remaining := f :: rest.remaining }

/-- Outcome of `_gen_allfiles_and_tar`: `ok` is the returned boolean, `csv`
the catalog written (none when no write happened), `remaining` the files
left on disk, `tar_present` whether `Froster.smallfiles.tar` exists
afterwards, `members` its contents. -/
structure GenResult where
  ok : Bool
  csv : Option (List AllfilesRow)
  remaining : List ChildFile
  tar_present : Bool
  members : List String
deriving DecidableEq, Repr

/-- Archiver._gen_allfiles_and_tar (lines 1984-2070): if the tar already
exists, return True immediately without touching the directory (lines
1991-1992); otherwise run the loop and remove the tar again when no file
was tarred (lines 2061-2063). -/
def gen_allfiles_and_tar (tar_exists : Bool) (is_tar : Bool) (smallsize : Nat)
    (files : List ChildFile) : GenResult :=
  if tar_exists then
    { ok := true, csv := none, remaining := files, tar_present := true, members := [] }
  else
    let r := gen_allfiles_loop is_tar smallsize files
    { ok := true
      csv := some r.rows
      remaining := r.remaining
      tar_present := !r.members.isEmpty
      members := r.members }

/-- A 1048576-byte file: exactly at the default 1024 KiB threshold. -/
def c5_big : ChildFile := { name := "big.bin", size := 1048576 }

/-- A directory listing with one file at the threshold and one below it. -/
def c5_files : List ChildFile := [c5_big, { name := "small.txt", size := 100 }]

/-! ## Archive orchestrator
(froster.py, Archiver.archive_locally lines 1472-1644 and Archiver.archive
lines 1646-1699).

External effects are recorded as an action trace; the outcome of each
external step (filesystem probes, rclone calls) is an input flag.  The
Python function ends in one of three ways: falling through (`completed`),
an early `return` (`returned`), or `sys.exit` (`exited`), which kills the
whole process including any remaining folders of the batch. -/

structure FrosterCfg where
  bucket_name : String
  archive_dir : String
  storage_class : String
deriving DecidableEq, Repr

/-- Facts probed and step outcomes observed during one archive_locally run.
`didtar` records whether the packing step tarred at least one file; it does
not influence the control flow of archive_locally. -/
structure ArchiveEnv where
  folder : String
  folder_already_archived : Bool
  froster_md5sum_exists : Bool
  is_force : Bool
  folder_empty : Bool
  didtar : Bool
  gen_allfiles_ok : Bool
  gen_md5_ok : Bool
  copy_folder_ok : Bool
  copy_csv_ok : Bool
  checksum_ok : Bool
  is_subfolder : Bool
  is_recursive : Bool
deriving DecidableEq, Repr

/-- One observable side effect of archive_locally.  A `copy` records the
rclone storage-class environment value in force during the call. -/
inductive Action where
  | reset_folder (folder : String)
  | gen_allfiles (folder : String) (didtar : Bool)
  | gen_md5sums (folder : String)
  | copy (src dst storage_class : String)
  | checksum (hashfile dst : String)
  | add_registry_entry (key : String) (mode : ArchiveMode)
deriving DecidableEq, Repr

inductive StepResult where
  | completed
  | returned
  | exited (code : Nat)
deriving DecidableEq, Repr

/-- `folder.lstrip(os.path.sep)`. -/
def strip_leading_sep (p : String) : String :=
  String.mk (p.data.dropWhile (fun c => c = '/'))

/-- `folder.rstrip(os.path.sep)` (used for the registry key). -/
def strip_trailing_sep (p : String) : String :=
  String.mk ((p.data.reverse.dropWhile (fun c => c = '/')).reverse)

/-- `os.path.join(f':s3:{bucket}', archive_dir, folder.lstrip(os.path.sep))`
(line 1483), assuming a relative, non-empty `archive_dir` as froster
configures it. -/
def s3_dest_of (cfg : FrosterCfg) (folder : String) : String :=
  ":s3:" ++ cfg.bucket_name ++ "/" ++ cfg.archive_dir ++ "/" ++
    strip_leading_sep folder

/-- `os.path.join(folder, file)` for a relative basename. -/
def join_name (dir file : String) : String := dir ++ "/" ++ file

/-- Archiver.archive_locally: the trace of external actions and how the
call ended.  Mirrors the branch order of lines 1494-1644: AlreadyArchived
exits the process with code 0; a leftover manifest without `--force` exits
with code 1; with `--force` the folder is reset first; an empty folder and
every failing step return early; on success the registry entry is written
unless this is a recursive sub-call. -/
def archive_locally (cfg : FrosterCfg) (env : ArchiveEnv) :
    List Action × StepResult :=
  if env.folder_already_archived then ([], StepResult.exited 0)
  else if env.froster_md5sum_exists && !env.is_force then ([], StepResult.exited 1)
  else
    let tr0 := if env.froster_md5sum_exists && env.is_force then
      [Action.reset_folder env.folder] else []
    if env.folder_empty then (tr0, StepResult.returned)
    else
      let tr1 := tr0 ++ [Action.gen_allfiles env.folder env.didtar]
      if !env.gen_allfiles_ok then (tr1, StepResult.returned)
      else
        let tr2 := tr1 ++ [Action.gen_md5sums env.folder]
        if !env.gen_md5_ok then (tr2, StepResult.returned)
        else
          let s3_dest := s3_dest_of cfg env.folder
          let tr3 := tr2 ++ [Action.copy env.folder s3_dest cfg.storage_class]
          if !env.copy_folder_ok then (tr3, StepResult.returned)
          else
            let tr4 := tr3 ++ [Action.copy (join_name env.folder allfiles_csv_filename)
              s3_dest "INTELLIGENT_TIERING"]
            if !env.copy_csv_ok then (tr4, StepResult.returned)
            else
              let tr5 := tr4 ++ [Action.checksum (join_name env.folder md5sum_filename)
                s3_dest]
              if !env.checksum_ok then (tr5, StepResult.returned)
              else
                let mode := if env.is_recursive then ArchiveMode.Recursive
                  else ArchiveMode.Single
                let tr6 := if env.is_subfolder then tr5
                  else tr5 ++ [Action.add_registry_entry
                    (strip_trailing_sep env.folder) mode]
                (tr6, StepResult.completed)

/-- The per-folder loop of Archiver.archive (lines 1685-1699, non-recursive
branch): each folder is processed in turn; a `sys.exit` inside
archive_locally terminates the process, so later folders are never
reached. -/
def archive_batch (cfg : FrosterCfg) : List ArchiveEnv → List (String × StepResult)
  | [] => []
  | e :: es =>
    let r := archive_locally cfg e
    match r.2 with
    | StepResult.exited c => [(e.folder, StepResult.exited c)]
    | s => (e.folder, s) :: archive_batch cfg es

def cfg0 : FrosterCfg :=
  { bucket_name := "bucket", archive_dir := "froster", storage_class := "DEEP_ARCHIVE" }

/-- A folder where every step succeeds. -/
def env_good : ArchiveEnv :=
  { folder := "/data/y", folder_already_archived := false,
    froster_md5sum_exists := false, is_force := false, folder_empty := false,
    didtar := true, gen_allfiles_ok := true, gen_md5_ok := true,
    copy_folder_ok := true, copy_csv_ok := true, checksum_ok := true,
    is_subfolder := false, is_recursive := false }

/-- A folder with a leftover manifest and no `--force`: the AlreadyPrepared
case. -/
def env_prepared : ArchiveEnv :=
  { env_good with folder := "/data/x", froster_md5sum_exists := true }

/-- A folder where the catalog/packing step fails. -/
def env_packfail : ArchiveEnv :=
  { env_good with folder := "/data/z", gen_allfiles_ok := false }

/-- A folder where every step succeeds and no file qualified for packing. -/
def env_nopack : ArchiveEnv := { env_good with didtar := false }

/-! ## Indexer query (froster.py, Archiver._index_locally, lines 1202-1229).

Only the columns consumed by the WHERE clause and the ORDER BY are
modelled; the remaining pwalk columns are projections of these or
display-only. -/

structure PwalkRow where
  filename : String
  pw_fcount : Int
  pw_dirsum : Int
deriving DecidableEq, Repr

/-- The WHERE clause of the in-memory DuckDB query (line 1211):
`pw_fcount > -1 AND pw_dirsum > 0`. -/
def index_where (r : PwalkRow) : Bool :=
  decide (r.pw_fcount > -1) && decide (r.pw_dirsum > 0)

/-- `ORDER BY pw_dirsum Desc` (line 1212), as an insertion sort. -/
def insert_by_dirsum (r : PwalkRow) : List PwalkRow → List PwalkRow
  | [] => [r]
  | s :: ss =>
    if s.pw_dirsum ≤ r.pw_dirsum then r :: s :: ss
    else s :: insert_by_dirsum r ss

def order_by_dirsum_desc : List PwalkRow → List PwalkRow
  | [] => []
  | r :: rs => insert_by_dirsum r (order_by_dirsum_desc rs)

/-- The row set produced by the indexer's in-memory SQL query (lines
1202-1213): filter by the WHERE clause, then sort by `pw_dirsum`
descending. -/
def index_query (rows : List PwalkRow) : List PwalkRow :=
  order_by_dirsum_desc (rows.filter index_where)

/-- A directory row with zero files but positive dirsum. -/
def zero_fcount_row : PwalkRow := { filename := "d", pw_fcount := 0, pw_dirsum := 5 }

/-! ## Hotspots file name encoding
(froster.py, Archiver._get_hotspots_file lines 2774-2787 and
Archiver._get_last_directory lines 2801-2809).

Names are modelled as lists of characters so that Python's slicing and
`str.replace` are explicit; for ASCII names Python's `len` (code points)
and the filesystem's 255-byte limit coincide. -/

structure MountInfo where
  mount_point : List Char
deriving DecidableEq, Repr

/-- `s.replace(pat, '')`: remove all non-overlapping occurrences of `pat`,
scanning left to right.  (Guarded against an empty pattern; froster calls
it only with non-empty mount points.) -/
def remove_occurrences (pat : List Char) (s : List Char) : List Char :=
  match s with
  | [] => []
  | c :: cs =>
    if _h : 0 < pat.length ∧ pat.isPrefixOf (c :: cs) = true then
      remove_occurrences pat ((c :: cs).drop pat.length)
    else c :: remove_occurrences pat cs
termination_by s.length
decreasing_by
  · simp only [List.length_drop, List.length_cons]
    omega
  · simp

/-- `path.rstrip(os.path.sep)` on character lists. -/
def rstrip_sep (path : List Char) : List Char :=
  (path.reverse.dropWhile (fun c => c == '/')).reverse

/-- Archiver._get_last_directory: rstrip separators, split on `/`, return
the last component. -/
def get_last_directory (path : List Char) : List Char :=
  ((rstrip_sep path).reverse.takeWhile (fun c => c != '/')).reverse

/-- The center-elision of over-long names (lines 2785-2786):
`hsfile[:25] + '.....' + hsfile[-225:]`, applied only above 255. -/
def elide_hsfile (l : List Char) : List Char :=
  if l.length > 255 then
    l.take 25 ++ ['.', '.', '.', '.', '.'] ++ l.drop (l.length - 225)
  else l

/-- One iteration of the mount loop (lines 2780-2786): a matching mount
point rewrites the name to `@<traildir>+<folder-with-mount-removed>` and
center-elides it when over-long; a non-matching mount leaves the name. -/
def hotspots_step (folder : List Char) (hsfile : List Char) (mnt : MountInfo) :
    List Char :=
  if mnt.mount_point.isPrefixOf folder then
    elide_hsfile (('@' :: get_last_directory mnt.mount_point) ++
      ('+' :: remove_occurrences mnt.mount_point folder))
  else hsfile

/-- Archiver._get_hotspots_file: start from `folder.replace('/','+')+'.csv'`
(line 2779, with no length cap) and rewrite through the mount loop. -/
def get_hotspots_file (mountlist : List MountInfo) (folder : List Char) :
    List Char :=
  mountlist.foldl (hotspots_step folder)
    ((folder.map (fun c => if c = '/' then '+' else c)) ++ ['.', 'c', 's', 'v'])

/-- A 301-character absolute path that lies under no detected mount point. -/
def c8_folder : List Char := '/' :: List.replicate 300 'a'

/-! ## Glacier restore controller
(froster.py, Archiver._glacier_restore lines 2470-2542 and its caller
Archiver.restore lines 2358-2364). -/

def glacier_classes : List String := ["GLACIER", "DEEP_ARCHIVE"]

/-- Outcome of the `s3.restore_object` call for one key. -/
inductive RestoreCallResult where
  | ok
  | clientError (code : String)
  | otherError
deriving DecidableEq, Repr

/-- The head-object data consulted for one listed key, plus the outcome the
restore request would have for it. -/
structure S3ObjectHeader where
  key : String
  storage_class : Option String
  restore : Option String
  restore_call : RestoreCallResult
deriving DecidableEq, Repr

/-- Python's substring test `pat in s` on character lists. -/
def is_infix_of (pat : List Char) : List Char → Bool
  | [] => pat.isEmpty
  | c :: cs => pat.isPrefixOf (c :: cs) || is_infix_of pat cs

/-- `'ongoing-request="true"' in header['Restore']`. -/
def restore_ongoing_true (r : String) : Bool :=
  is_infix_of ("ongoing-request=\"true\"").data r.data

/-- `'ongoing-request="false"' in header['Restore']`. -/
def restore_ongoing_false (r : String) : Bool :=
  is_infix_of ("ongoing-request=\"false\"").data r.data

structure GlacierLists where
  triggered : List String
  restoring : List String
  restored : List String
  not_glacier : List String
deriving DecidableEq, Repr

/-- `'/' in object_key[len(prefix):]` (lines 2501-2502). -/
def remaining_has_sep (pfx key : String) : Bool :=
  (key.data.drop pfx.length).contains '/'

/-- The classification loop of `_glacier_restore` (lines 2494-2541): skip
subfolder keys when not recursive; keys without a glacier storage class go
to `not_glacier`; an ongoing restore header goes to `restoring`, a finished
one to `restored`; otherwise a restore request is issued — success appends
to `triggered`, a `RestoreAlreadyInProgress` client error to `restoring`,
and any other failure drops the key. -/
def glacier_classify (pfx : String) (recursive : Bool) :
    List S3ObjectHeader → GlacierLists
  | [] => { triggered := [], restoring := [], restored := [], not_glacier := [] }
  | obj :: objs =>
    let rest := glacier_classify pfx recursive objs
    let attempt :=
      match obj.restore_call with
      | RestoreCallResult.ok => { rest with triggered := obj.key :: rest.triggered }
      | RestoreCallResult.clientError code =>
        if code = "RestoreAlreadyInProgress" then
          { rest with restoring := obj.key :: rest.restoring }
        else rest
      | RestoreCallResult.otherError => rest
    if remaining_has_sep pfx obj.key && !recursive then rest
    else
      match obj.storage_class with
      | none => rest
      | some sc =>
        if !(glacier_classes.contains sc) then
          { rest with not_glacier := obj.key :: rest.not_glacier }
        else
          match obj.restore with
          | some r =>
            if restore_ongoing_true r then
              { rest with restoring := obj.key :: rest.restoring }
            else if restore_ongoing_false r then
              { rest with restored := obj.key :: rest.restored }
            else attempt
          | none => attempt

/-- Archiver._glacier_restore: Python returns a plain tuple whose arity
differs between the ClientError branch of the bucket listing (3 empty
lists, line 2489) and the normal return (4 lists, line 2542).  The dynamic
tuple is modelled as a list of lists so the two arities inhabit one type. -/
def glacier_restore (list_client_error : Bool) (pfx : String)
    (recursive : Bool) (objs : List S3ObjectHeader) : List (List String) :=
  if list_client_error then [[], [], []]
  else
    let r := glacier_classify pfx recursive objs
    [r.triggered, r.restoring, r.restored, r.not_glacier]

/-- The caller's unpacking
`trig, rest, done, notg = self._glacier_restore(...)` (line 2363): Python
tuple unpacking succeeds only for exactly four values and raises otherwise. -/
def unpack4 (l : List (List String)) :
    Option (List String × List String × List String × List String) :=
  match l with
  | [a, b, c, d] => some (a, b, c, d)
  | _ => none

end Froster

namespace Froster

/-- Claim C1: with a registry entry and a local manifest present, a failed
reverse checksum verification makes `delete_locally` leave the folder's
direct-child files exactly as they were: nothing is removed and no
placeholder is written. -/
theorem delete_locally_failed_verification_is_noop
    (e : ArchiveEntry) (files : List String)
    (hman : files.contains md5sum_filename = true ∨
            files.contains md5sum_restored_filename = true) :
    delete_locally (some e) false files = files := by
  unfold delete_locally
  rcases hman with h | h <;> simp [h]

/-- Witness for C1: a concrete folder with a manifest and one data file is
untouched when verification fails. -/
theorem delete_locally_failed_verification_is_noop_witness :
    delete_locally (some sampleEntry) false [".froster.md5sum", "data.bin"] =
      [".froster.md5sum", "data.bin"] :=
  delete_locally_failed_verification_is_noop sampleEntry
    [".froster.md5sum", "data.bin"] (Or.inl (by decide))

/-- Claim C3 counterexample: running the hashing step of `_gen_md5sums` (with
the archive manifest name as hash file) over exactly the five meta files
hashes two of them (`Froster.allfiles.csv` and `Froster.smallfiles.tar`), and
a successful `delete_locally` over the five meta files removes
`Froster.smallfiles.tar`. -/
theorem meta_files_not_all_excluded :
    gen_md5sums md5sum_filename dirmetafiles =
      [allfiles_csv_filename, smallfiles_tar_filename] ∧
    delete_locally (some sampleEntry) true dirmetafiles =
      [allfiles_csv_filename, md5sum_filename, md5sum_restored_filename,
       where_did_the_files_go_filename] := by
  constructor <;> decide

/-- Claim C3 (amended): of the five meta files, the hashing step excludes
exactly `.froster.md5sum`, `.froster-restored.md5sum` and
`Where-did-the-files-go.txt` (hashing the allfiles CSV and the smallfiles
tar), and the deletion step skips exactly `.froster.md5sum`,
`.froster-restored.md5sum`, `Froster.allfiles.csv` and
`Where-did-the-files-go.txt` (removing the smallfiles tar). -/
theorem meta_files_exclusions (f : String) :
    (gen_md5sums_hashes md5sum_filename f = false ↔
      f = md5sum_filename ∨ f = md5sum_restored_filename ∨
      f = where_did_the_files_go_filename) ∧
    (delete_skip f = true ↔
      f = md5sum_filename ∨ f = md5sum_restored_filename ∨
      f = allfiles_csv_filename ∨ f = where_did_the_files_go_filename) := by
  constructor
  · unfold gen_md5sums_hashes
    simp [Bool.and_eq_false_iff, bne]
    tauto
  · unfold delete_skip
    simp [Bool.or_eq_true_iff]
    tauto

/-! ### Claim C2: parent-chain lookup -/

/-- Claim C2 counterexample: for `P = /a/b/c` with no direct entry, the
intermediate ancestor `/a/b` has a `Single` entry, yet the lookup still
returns the entry of the higher `Recursive` ancestor `/a` — the `Single`
entry does not block recursive coverage, contradicting the claimed "if and
only if no intermediate ancestor is marked Single". -/
theorem single_entry_does_not_block_recursive_lookup :
    registry_lookup c2_registry ["a", "b", "c"] = none ∧
    registry_lookup c2_registry ["a", "b"] = some entrySingle ∧
    entrySingle.archive_mode = ArchiveMode.Single ∧
    ["a", "b"] ∈ path_parents ["a", "b", "c"] ∧
    archive_json_get_row c2_registry ["a", "b", "c"] = some entryRec := by
  refine ⟨by decide, by decide, by decide, by decide, by decide⟩

/-- If `find_recursive_parent` sees a list whose first `Recursive` hit is
the entry of `A`, it returns that entry, no matter what non-`Recursive`
entries (in particular `Single` ones) occur before `A`. -/
theorem find_recursive_parent_first_hit
    (data : Registry) (pre post : List FPath) (A : FPath) (e : ArchiveEntry)
    (hA : registry_lookup data A = some e)
    (hrec : e.archive_mode = ArchiveMode.Recursive)
    (hpre : ∀ B ∈ pre, ∀ e', registry_lookup data B = some e' →
      e'.archive_mode ≠ ArchiveMode.Recursive) :
    find_recursive_parent data (pre ++ A :: post) = some e := by
  induction pre with
  | nil =>
    simp [find_recursive_parent, hA, hrec]
  | cons B bs ih =>
    have hB := hpre B (List.mem_cons_self B bs)
    simp only [List.cons_append, find_recursive_parent]
    cases hlk : registry_lookup data B with
    | none =>
      exact ih (fun C hC => hpre C (List.mem_cons_of_mem B hC))
    | some e' =>
      have hne : e'.archive_mode ≠ ArchiveMode.Recursive := hB e' hlk
      dsimp only
      rw [if_neg hne]
      exact ih (fun C hC => hpre C (List.mem_cons_of_mem B hC))

/-- Claim C2 (amended): for a path `P` with no direct registry entry,
`archive_json_get_row` returns the entry of the nearest ancestor `A` whose
entry is marked `Recursive`; ancestors between `P` and `A` whose entries are
marked `Single` (or anything other than `Recursive`) are skipped and do not
block the lookup. -/
theorem archive_json_get_row_nearest_recursive
    (data : Registry) (P A : FPath) (e : ArchiveEntry)
    (hP : registry_lookup data P = none)
    (pre post : List FPath)
    (hsplit : path_parents P = pre ++ A :: post)
    (hA : registry_lookup data A = some e)
    (hrec : e.archive_mode = ArchiveMode.Recursive)
    (hpre : ∀ B ∈ pre, ∀ e', registry_lookup data B = some e' →
      e'.archive_mode ≠ ArchiveMode.Recursive) :
    archive_json_get_row data P = some e := by
  unfold archive_json_get_row
  rw [hP, hsplit]
  exact find_recursive_parent_first_hit data pre post A e hA hrec hpre

/-- Witness for the amended C2: on the concrete registry with `/a` Recursive
and `/a/b` Single, the lookup of `/a/b/c` returns the `/a` entry. -/
theorem archive_json_get_row_nearest_recursive_witness :
    archive_json_get_row c2_registry ["a", "b", "c"] = some entryRec :=
  archive_json_get_row_nearest_recursive c2_registry ["a", "b", "c"] ["a"]
    entryRec (by decide) [["a", "b"]] [[]] (by decide) (by decide) (by decide)
    (by decide)

/-! ### Claim C5: small-file packing threshold and Tarred flag -/

/-- Every tar member name comes from the input listing. -/
theorem gen_allfiles_loop_members_names (is_tar : Bool) (smallsize : Nat)
    (fs : List ChildFile) (x : String)
    (hx : x ∈ (gen_allfiles_loop is_tar smallsize fs).members) :
    x ∈ fs.map ChildFile.name := by
  induction fs with
  | nil => simp [gen_allfiles_loop] at hx
  | cons g gs ih =>
    simp only [gen_allfiles_loop] at hx
    simp only [List.map_cons]
    split at hx
    · exact List.mem_cons_of_mem _ (ih hx)
    · split at hx
      · dsimp only at hx
        rcases List.mem_cons.mp hx with h | h
        · exact h ▸ List.mem_cons_self _ _
        · exact List.mem_cons_of_mem _ (ih h)
      · dsimp only at hx
        exact List.mem_cons_of_mem _ (ih hx)

/-- Every remaining file comes from the input listing. -/
theorem gen_allfiles_loop_remaining_sub (is_tar : Bool) (smallsize : Nat)
    (fs : List ChildFile) (f : ChildFile)
    (hf : f ∈ (gen_allfiles_loop is_tar smallsize fs).remaining) :
    f ∈ fs := by
  induction fs with
  | nil => simp [gen_allfiles_loop] at hf
  | cons g gs ih =>
    simp only [gen_allfiles_loop] at hf
    split at hf
    · exact List.mem_cons_of_mem _ (ih hf)
    · split at hf
      · dsimp only at hf
        exact List.mem_cons_of_mem _ (ih hf)
      · dsimp only at hf
        rcases List.mem_cons.mp hf with h | h
        · exact h ▸ List.mem_cons_self _ _
        · exact List.mem_cons_of_mem _ (ih h)

/-- Every catalog row names a file of the input listing. -/
theorem gen_allfiles_loop_rows_names (is_tar : Bool) (smallsize : Nat)
    (fs : List ChildFile) (row : AllfilesRow)
    (hrow : row ∈ (gen_allfiles_loop is_tar smallsize fs).rows) :
    row.file ∈ fs.map ChildFile.name := by
  induction fs with
  | nil => simp [gen_allfiles_loop] at hrow
  | cons g gs ih =>
    simp only [gen_allfiles_loop] at hrow
    simp only [List.map_cons]
    split at hrow
    · exact List.mem_cons_of_mem _ (ih hrow)
    · split at hrow
      · dsimp only at hrow
        rcases List.mem_cons.mp hrow with h | h
        · rw [h]
          exact List.mem_cons_self _ _
        · exact List.mem_cons_of_mem _ (ih h)
      · dsimp only at hrow
        rcases List.mem_cons.mp hrow with h | h
        · rw [h]
          exact List.mem_cons_self _ _
        · exact List.mem_cons_of_mem _ (ih h)

/-- Claim C5: for a direct-child file `f` (not named like the CSV) of a
directory with distinct child names, `f` is added to the tar iff packing is
enabled and `f.size < smallsize*1024` (strict, so a file of exactly
`smallsize*1024` bytes is not packed); `f` stays on disk iff it is not
packed; and every catalog row for `f` carries `Tarred = "Yes"` iff `f` is
packed. -/
theorem gen_allfiles_and_tar_small_file_threshold
    (is_tar : Bool) (smallsize : Nat) (files : List ChildFile)
    (hn : (files.map ChildFile.name).Nodup)
    (f : ChildFile) (hf : f ∈ files) (hcsv : f.name ≠ allfiles_csv_filename) :
    (f.name ∈ (gen_allfiles_loop is_tar smallsize files).members ↔
      (is_tar = true ∧ f.size < smallsize * 1024)) ∧
    (f ∈ (gen_allfiles_loop is_tar smallsize files).remaining ↔
      ¬ (is_tar = true ∧ f.size < smallsize * 1024)) ∧
    (∀ row ∈ (gen_allfiles_loop is_tar smallsize files).rows, row.file = f.name →
      (row.tarred = "Yes" ↔ (is_tar = true ∧ f.size < smallsize * 1024))) := by
  revert hn hf
  induction files with
  | nil =>
    intro hn hf
    cases hf
  | cons g gs ih =>
    intro hn hf
    rw [List.map_cons, List.nodup_cons] at hn
    obtain ⟨hgn, hgs⟩ := hn
    rcases List.mem_cons.mp hf with rfl | hfgs
    · simp only [gen_allfiles_loop, if_neg hcsv]
      by_cases hp : is_tar = true ∧ f.size < smallsize * 1024
      · rw [if_pos hp]
        dsimp only
        refine ⟨⟨fun _ => hp, fun _ => List.mem_cons_self _ _⟩, ?_, ?_⟩
        · constructor
          · intro hmem
            exact absurd (List.mem_map_of_mem ChildFile.name
              (gen_allfiles_loop_remaining_sub is_tar smallsize gs f hmem)) hgn
          · intro hnp
            exact absurd hp hnp
        · intro row hrow hfile
          rcases List.mem_cons.mp hrow with hr | hr
          · rw [hr]
            simpa using hp
          · have := gen_allfiles_loop_rows_names is_tar smallsize gs row hr
            rw [hfile] at this
            exact absurd this hgn
      · rw [if_neg hp]
        dsimp only
        refine ⟨?_, ⟨fun _ => hp, fun _ => List.mem_cons_self _ _⟩, ?_⟩
        · constructor
          · intro hmem
            exact absurd (gen_allfiles_loop_members_names is_tar smallsize gs
              f.name hmem) hgn
          · intro h
            exact absurd h hp
        · intro row hrow hfile
          rcases List.mem_cons.mp hrow with hr | hr
          · rw [hr]
            have hNo : ({ file := f.name, size := f.size, tarred := "No" } :
                AllfilesRow).tarred = "No" := rfl
            rw [hNo]
            constructor
            · intro h
              exact absurd h (by decide)
            · intro h
              exact absurd h hp
          · have := gen_allfiles_loop_rows_names is_tar smallsize gs row hr
            rw [hfile] at this
            exact absurd this hgn
    · have hgf : g.name ≠ f.name := by
        intro h
        exact hgn (h ▸ List.mem_map_of_mem ChildFile.name hfgs)
      have IH := ih hgs hfgs
      simp only [gen_allfiles_loop]
      by_cases h1 : g.name = allfiles_csv_filename
      · rw [if_pos h1]
        exact IH
      · rw [if_neg h1]
        by_cases hp : is_tar = true ∧ g.size < smallsize * 1024
        · rw [if_pos hp]
          dsimp only
          refine ⟨?_, IH.2.1, ?_⟩
          · rw [List.mem_cons]
            constructor
            · rintro (h | h)
              · exact absurd h.symm hgf
              · exact IH.1.mp h
            · intro h
              exact Or.inr (IH.1.mpr h)
          · intro row hrow hfile
            rcases List.mem_cons.mp hrow with hr | hr
            · rw [hr] at hfile
              exact absurd hfile hgf
            · exact IH.2.2 row hr hfile
        · rw [if_neg hp]
          dsimp only
          refine ⟨IH.1, ?_, ?_⟩
          · rw [List.mem_cons]
            constructor
            · rintro (h | h)
              · exact absurd (congrArg ChildFile.name h.symm) hgf
              · exact IH.2.1.mp h
            · intro h
              exact Or.inr (IH.2.1.mpr h)
          · intro row hrow hfile
            rcases List.mem_cons.mp hrow with hr | hr
            · rw [hr] at hfile
              exact absurd hfile hgf
            · exact IH.2.2 row hr hfile

/-- Witness for C5: with threshold 1024 KiB, a 1048576-byte file (exactly at
the threshold) is not tarred, stays on disk, and its catalog row is not
flagged Yes. -/
theorem gen_allfiles_and_tar_small_file_threshold_witness :
    (c5_big.name ∈ (gen_allfiles_loop true 1024 c5_files).members ↔
      (true = true ∧ c5_big.size < 1024 * 1024)) ∧
    (c5_big ∈ (gen_allfiles_loop true 1024 c5_files).remaining ↔
      ¬ (true = true ∧ c5_big.size < 1024 * 1024)) ∧
    (∀ row ∈ (gen_allfiles_loop true 1024 c5_files).rows, row.file = c5_big.name →
      (row.tarred = "Yes" ↔ (true = true ∧ c5_big.size < 1024 * 1024))) :=
  gen_allfiles_and_tar_small_file_threshold true 1024 c5_files (by decide)
    c5_big (by decide) (by decide)

/-! ### Claims C4, C7, C9: archive orchestrator -/

/-- A completed archive_locally run passed every gate. -/
theorem archive_locally_completed_flags (cfg : FrosterCfg) (env : ArchiveEnv)
    (h : (archive_locally cfg env).2 = StepResult.completed) :
    env.folder_already_archived = false ∧
    (env.froster_md5sum_exists && !env.is_force) = false ∧
    env.folder_empty = false ∧
    env.gen_allfiles_ok = true ∧
    env.gen_md5_ok = true ∧
    env.copy_folder_ok = true ∧
    env.copy_csv_ok = true ∧
    env.checksum_ok = true := by
  have h1 : env.folder_already_archived = false := by
    by_contra hc
    rw [Bool.not_eq_false] at hc
    simp [archive_locally, hc] at h
  have h2 : (env.froster_md5sum_exists && !env.is_force) = false := by
    by_contra hc
    rw [Bool.not_eq_false] at hc
    simp [archive_locally, h1, hc] at h
  have h3 : env.folder_empty = false := by
    by_contra hc
    rw [Bool.not_eq_false] at hc
    simp [archive_locally, h1, h2, hc] at h
  have h4 : env.gen_allfiles_ok = true := by
    by_contra hc
    rw [Bool.not_eq_true] at hc
    simp [archive_locally, h1, h2, h3, hc] at h
  have h5 : env.gen_md5_ok = true := by
    by_contra hc
    rw [Bool.not_eq_true] at hc
    simp [archive_locally, h1, h2, h3, h4, hc] at h
  have h6 : env.copy_folder_ok = true := by
    by_contra hc
    rw [Bool.not_eq_true] at hc
    simp [archive_locally, h1, h2, h3, h4, h5, hc] at h
  have h7 : env.copy_csv_ok = true := by
    by_contra hc
    rw [Bool.not_eq_true] at hc
    simp [archive_locally, h1, h2, h3, h4, h5, h6, hc] at h
  have h8 : env.checksum_ok = true := by
    by_contra hc
    rw [Bool.not_eq_true] at hc
    simp [archive_locally, h1, h2, h3, h4, h5, h6, h7, hc] at h
  exact ⟨h1, h2, h3, h4, h5, h6, h7, h8⟩

/-- The full action trace of a completed archive_locally run. -/
theorem archive_locally_completed_trace (cfg : FrosterCfg) (env : ArchiveEnv)
    (h : (archive_locally cfg env).2 = StepResult.completed) :
    (archive_locally cfg env).1 =
      (if env.froster_md5sum_exists && env.is_force then
        [Action.reset_folder env.folder] else []) ++
      [Action.gen_allfiles env.folder env.didtar,
       Action.gen_md5sums env.folder,
       Action.copy env.folder (s3_dest_of cfg env.folder) cfg.storage_class,
       Action.copy (join_name env.folder allfiles_csv_filename)
         (s3_dest_of cfg env.folder) "INTELLIGENT_TIERING",
       Action.checksum (join_name env.folder md5sum_filename)
         (s3_dest_of cfg env.folder)] ++
      (if env.is_subfolder then []
       else [Action.add_registry_entry (strip_trailing_sep env.folder)
         (if env.is_recursive then ArchiveMode.Recursive else ArchiveMode.Single)]) := by
  obtain ⟨h1, h2, h3, h4, h5, h6, h7, h8⟩ :=
    archive_locally_completed_flags cfg env h
  cases hsub : env.is_subfolder <;>
    simp [archive_locally, h1, h2, h3, h4, h5, h6, h7, h8, hsub]

/-- Claim C4: every completed archive run uploads the allfiles CSV in a
separate copy call with storage class INTELLIGENT_TIERING, immediately after
the folder upload (which uses the configured storage class); the flow does
not depend on whether any file qualified for packing (`env.didtar` is
arbitrary). -/
theorem archive_locally_uploads_csv_intelligent_tiering
    (cfg : FrosterCfg) (env : ArchiveEnv)
    (h : (archive_locally cfg env).2 = StepResult.completed) :
    ∃ l1 l3,
      (archive_locally cfg env).1 =
        l1 ++ Action.copy env.folder (s3_dest_of cfg env.folder) cfg.storage_class ::
          Action.copy (join_name env.folder allfiles_csv_filename)
            (s3_dest_of cfg env.folder) "INTELLIGENT_TIERING" :: l3 := by
  refine ⟨(if env.froster_md5sum_exists && env.is_force then
      [Action.reset_folder env.folder] else []) ++
      [Action.gen_allfiles env.folder env.didtar, Action.gen_md5sums env.folder],
    Action.checksum (join_name env.folder md5sum_filename) (s3_dest_of cfg env.folder) ::
      (if env.is_subfolder then []
       else [Action.add_registry_entry (strip_trailing_sep env.folder)
         (if env.is_recursive then ArchiveMode.Recursive else ArchiveMode.Single)]), ?_⟩
  rw [archive_locally_completed_trace cfg env h]
  simp

/-- Witness for C4: a concrete folder where every step succeeds and no file
qualified for packing still gets its CSV uploaded as INTELLIGENT_TIERING
right after the folder upload. -/
theorem archive_locally_uploads_csv_intelligent_tiering_witness :
    ∃ l1 l3,
      (archive_locally cfg0 env_nopack).1 =
        l1 ++ Action.copy env_nopack.folder (s3_dest_of cfg0 env_nopack.folder)
            cfg0.storage_class ::
          Action.copy (join_name env_nopack.folder allfiles_csv_filename)
            (s3_dest_of cfg0 env_nopack.folder) "INTELLIGENT_TIERING" :: l3 :=
  archive_locally_uploads_csv_intelligent_tiering cfg0 env_nopack (by decide)

/-- Claim C7 counterexample: in a two-folder batch whose first folder is the
AlreadyPrepared case (manifest present, no `--force`), archive_locally calls
`sys.exit(1)`, so the batch terminates and the second folder is never
processed — processing does not continue with the next folder. -/
theorem archive_batch_stops_on_already_prepared :
    archive_batch cfg0 [env_prepared, env_good] =
      [("/data/x", StepResult.exited 1)] ∧
    ∀ pr ∈ archive_batch cfg0 [env_prepared, env_good], pr.fst ≠ "/data/y" := by
  constructor <;> decide

/-- Claim C7 (amended): a folder failure surfaced by an early `return`
(for example a failed pack, upload or verification step) is recorded and the
batch continues with the next folder, as does a completed folder; but the
AlreadyArchived case exits the whole process with code 0 and the
AlreadyPrepared case (manifest present without `--force`) exits it with
code 1, so the remaining folders of the batch are never processed. -/
theorem archive_batch_continue_and_exit
    (cfg : FrosterCfg) (e : ArchiveEnv) (es : List ArchiveEnv) :
    ((archive_locally cfg e).2 = StepResult.returned →
      archive_batch cfg (e :: es) =
        (e.folder, StepResult.returned) :: archive_batch cfg es) ∧
    ((archive_locally cfg e).2 = StepResult.completed →
      archive_batch cfg (e :: es) =
        (e.folder, StepResult.completed) :: archive_batch cfg es) ∧
    (e.folder_already_archived = true →
      archive_batch cfg (e :: es) = [(e.folder, StepResult.exited 0)]) ∧
    (e.folder_already_archived = false → e.froster_md5sum_exists = true →
      e.is_force = false →
      archive_batch cfg (e :: es) = [(e.folder, StepResult.exited 1)]) := by
  refine ⟨?_, ?_, ?_, ?_⟩
  · intro h
    simp only [archive_batch, h]
  · intro h
    simp only [archive_batch, h]
  · intro h
    have hres : (archive_locally cfg e).2 = StepResult.exited 0 := by
      simp [archive_locally, h]
    simp only [archive_batch, hres]
  · intro h1 h2 h3
    have hres : (archive_locally cfg e).2 = StepResult.exited 1 := by
      simp [archive_locally, h1, h2, h3]
    simp only [archive_batch, hres]

/-- Witness for the amended C7: a concrete batch continues past a folder
whose packing step failed, and a concrete batch dies on an AlreadyPrepared
folder, leaving the second folder unprocessed. -/
theorem archive_batch_continue_and_exit_witness :
    archive_batch cfg0 [env_packfail, env_good] =
      ("/data/z", StepResult.returned) :: archive_batch cfg0 [env_good] ∧
    archive_batch cfg0 [env_prepared, env_good] =
      [("/data/x", StepResult.exited 1)] :=
  ⟨(archive_batch_continue_and_exit cfg0 env_packfail [env_good]).1 (by decide),
   (archive_batch_continue_and_exit cfg0 env_prepared [env_good]).2.2.2
     (by decide) (by decide) (by decide)⟩

/-- Claim C9: when `Froster.smallfiles.tar` already exists,
`_gen_allfiles_and_tar` returns True immediately — no CSV is written, no
file is tarred, no file is removed, the directory is left unchanged — and
the archive orchestrator, seeing True, proceeds to the manifest step as if
the catalog had been generated. -/
theorem gen_allfiles_and_tar_early_return_when_tar_exists
    (is_tar : Bool) (smallsize : Nat) (files : List ChildFile)
    (cfg : FrosterCfg) (env : ArchiveEnv)
    (h1 : env.folder_already_archived = false)
    (h2 : env.froster_md5sum_exists = false)
    (h3 : env.folder_empty = false)
    (h4 : env.gen_allfiles_ok = true) :
    gen_allfiles_and_tar true is_tar smallsize files =
      { ok := true, csv := none, remaining := files, tar_present := true,
        members := [] } ∧
    Action.gen_md5sums env.folder ∈ (archive_locally cfg env).1 := by
  constructor
  · simp [gen_allfiles_and_tar]
  · cases hmd : env.gen_md5_ok <;>
      cases hcf : env.copy_folder_ok <;>
      cases hcc : env.copy_csv_ok <;>
      cases hck : env.checksum_ok <;>
      cases hsub : env.is_subfolder <;>
      simp [archive_locally, h1, h2, h3, h4, hmd, hcf, hcc, hck, hsub]

/-- Witness for C9: a concrete directory with the tar already present is
returned unchanged with success, and a concrete orchestrator run goes on to
generate checksums. -/
theorem gen_allfiles_and_tar_early_return_when_tar_exists_witness :
    gen_allfiles_and_tar true true 1024 c5_files =
      { ok := true, csv := none, remaining := c5_files, tar_present := true,
        members := [] } ∧
    Action.gen_md5sums env_good.folder ∈ (archive_locally cfg0 env_good).1 :=
  gen_allfiles_and_tar_early_return_when_tar_exists true 1024 c5_files cfg0
    env_good (by decide) (by decide) (by decide) (by decide)

/-! ### Claim C6: the indexer's row filter -/

theorem mem_insert_by_dirsum (x r : PwalkRow) (l : List PwalkRow) :
    r ∈ insert_by_dirsum x l ↔ r = x ∨ r ∈ l := by
  induction l with
  | nil => simp [insert_by_dirsum]
  | cons s ss ih =>
    simp only [insert_by_dirsum]
    split
    · simp [List.mem_cons]
    · rw [List.mem_cons, ih, List.mem_cons]
      tauto

theorem mem_order_by_dirsum_desc (l : List PwalkRow) (r : PwalkRow) :
    r ∈ order_by_dirsum_desc l ↔ r ∈ l := by
  induction l with
  | nil => simp [order_by_dirsum_desc]
  | cons s ss ih =>
    simp only [order_by_dirsum_desc]
    rw [mem_insert_by_dirsum, ih, List.mem_cons]

/-- Claim C6 counterexample: a directory row with `fileCount = 0` and
positive bytes passes the WHERE clause and survives into the sorted result,
so rows with `fileCount = 0` are not discarded. -/
theorem zero_filecount_row_not_discarded :
    zero_fcount_row.pw_fcount = 0 ∧
    index_where zero_fcount_row = true ∧
    zero_fcount_row ∈ index_query [zero_fcount_row] := by
  refine ⟨by decide, by decide, by decide⟩

/-- Claim C6 (amended): the in-memory query keeps exactly the rows with
`fileCount > -1` (i.e. `≥ 0`) and `bytes > 0`; rows with `fileCount = 0`
but positive bytes are kept, not discarded. -/
theorem index_query_keeps_exactly (rows : List PwalkRow) (r : PwalkRow) :
    r ∈ index_query rows ↔
      r ∈ rows ∧ r.pw_fcount > -1 ∧ r.pw_dirsum > 0 := by
  unfold index_query
  rw [mem_order_by_dirsum_desc, List.mem_filter]
  unfold index_where
  simp [and_assoc]

/-! ### Claim C8: hotspots file name length -/

/-- Claim C8 counterexample: a 301-character folder path that lies under no
detected mount point is encoded as `folder.replace('/','+') + '.csv'` with
no length cap: 305 characters (305 bytes in ASCII), exceeding 255. -/
theorem hotspots_file_name_exceeds_255 :
    (get_hotspots_file [] c8_folder).length = 305 ∧
    255 < (get_hotspots_file [] c8_folder).length := by
  have hlen : (get_hotspots_file [] c8_folder).length = 305 := by
    have h : get_hotspots_file [] c8_folder =
        (c8_folder.map (fun c => if c = '/' then '+' else c)) ++
          ['.', 'c', 's', 'v'] := rfl
    rw [h, List.length_append, List.length_map]
    unfold c8_folder
    rw [List.length_cons, List.length_replicate]
    rfl
  rw [hlen]
  omega

/-- The center-elision never produces a name longer than 255. -/
theorem elide_hsfile_length (l : List Char) : (elide_hsfile l).length ≤ 255 := by
  unfold elide_hsfile
  split
  · simp only [List.append_assoc, List.length_append, List.length_take,
      List.length_drop, List.length_cons, List.length_nil]
    omega
  · omega

/-- A loop iteration keeps the name within 255 characters once it is. -/
theorem hotspots_step_length (folder hsfile : List Char) (mnt : MountInfo)
    (h : hsfile.length ≤ 255) :
    (hotspots_step folder hsfile mnt).length ≤ 255 := by
  unfold hotspots_step
  split
  · exact elide_hsfile_length _
  · exact h

theorem foldl_hotspots_length (folder : List Char) (ms : List MountInfo)
    (acc : List Char) (h : acc.length ≤ 255) :
    (ms.foldl (hotspots_step folder) acc).length ≤ 255 := by
  induction ms generalizing acc with
  | nil => simpa using h
  | cons m ms ih =>
    exact ih _ (hotspots_step_length folder acc m h)

theorem foldl_hotspots_length_of_match (folder : List Char)
    (ms : List MountInfo) (acc : List Char)
    (h : ∃ mnt ∈ ms, mnt.mount_point.isPrefixOf folder = true) :
    (ms.foldl (hotspots_step folder) acc).length ≤ 255 := by
  induction ms generalizing acc with
  | nil =>
    rcases h with ⟨m, hm, _⟩
    cases hm
  | cons m ms ih =>
    rcases h with ⟨m', hm', hmatch⟩
    rcases List.mem_cons.mp hm' with rfl | hin
    · have hstep : (hotspots_step folder acc m').length ≤ 255 := by
        unfold hotspots_step
        rw [if_pos hmatch]
        exact elide_hsfile_length _
      exact foldl_hotspots_length folder ms _ hstep
    · exact ih _ ⟨m', hin, hmatch⟩

/-- Claim C8 (amended): the encoded hotspots file name is at most 255
characters (255 bytes for ASCII paths) whenever the folder lies under some
detected mount point — long names are center-elided to exactly 255 — but
a folder under no detected mount point keeps the uncapped
`folder.replace('/','+') + '.csv'` name, which exceeds 255 bytes for long
paths. -/
theorem get_hotspots_file_length_bounded (mountlist : List MountInfo)
    (folder : List Char)
    (h : ∃ mnt ∈ mountlist, mnt.mount_point.isPrefixOf folder = true) :
    (get_hotspots_file mountlist folder).length ≤ 255 := by
  unfold get_hotspots_file
  exact foldl_hotspots_length_of_match folder mountlist _ h

/-- Witness for the amended C8: a folder under the mount point `/net` gets a
name within the limit. -/
theorem get_hotspots_file_length_bounded_witness :
    (get_hotspots_file [{ mount_point := ['/', 'n', 'e', 't'] }]
      ['/', 'n', 'e', 't', '/', 'x']).length ≤ 255 :=
  get_hotspots_file_length_bounded
    [{ mount_point := ['/', 'n', 'e', 't'] }] ['/', 'n', 'e', 't', '/', 'x']
    ⟨{ mount_point := ['/', 'n', 'e', 't'] }, by decide, by decide⟩

/-! ### Claim C10: glacier restore tuple arity -/

/-- Claim C10: when listing the bucket raises a client error,
`_glacier_restore` returns a 3-element tuple, while every other return path
yields the 4-element `(triggered, restoring, restored, not_glacier)`; the
caller in `restore` unpacks exactly four values, so the error branch's
result cannot be consumed — its unpacking fails — while the normal result
unpacks fine. -/
theorem glacier_restore_arity (pfx : String) (recursive : Bool)
    (objs : List S3ObjectHeader) :
    (glacier_restore true pfx recursive objs).length = 3 ∧
    unpack4 (glacier_restore true pfx recursive objs) = none ∧
    (glacier_restore false pfx recursive objs).length = 4 ∧
    (unpack4 (glacier_restore false pfx recursive objs)).isSome = true := by
  refine ⟨rfl, rfl, rfl, rfl⟩

end Froster
